import Mathlib

/-!
Verification development for the repository consisting of the single notebook
`guides/ipynb/.ipynb_checkpoints/training_keras_models_on_cloud-checkpoint.ipynb`
(the TensorFlow Cloud usage guide).  The notebook is embedded cell by cell as
structured data: a small Python-fragment abstract syntax covering every
construct occurring in the notebook (plus the constructs whose absence the
specification asserts, such as try/except, loops and class definitions, so
that absence claims are meaningful scans and not vacuities of the type).
Code blocks embedded in markdown prose are kept as snippets of their cells.
-/

/-- Python expressions, as they occur in the notebook. -/
inductive PyExpr where
  /-- integer literal -/
  | num (n : Nat)
  /-- floating-point literal, kept as its source text (never computed on) -/
  | floatLit (s : String)
  /-- string literal -/
  | str (s : String)
  /-- `None` -/
  | pNone
  /-- `True` / `False` -/
  | pBool (b : Bool)
  /-- a possibly dotted name, e.g. `model` or `keras.callbacks.EarlyStopping` -/
  | name (x : String)
  /-- attribute of a non-name expression, e.g. `datetime.datetime.now().strftime` -/
  | attrOf (e : PyExpr) (f : String)
  /-- subscript, e.g. `tfc.COMMON_MACHINE_CONFIGS['CPU']` -/
  | subscript (e : PyExpr) (k : PyExpr)
  /-- call with positional and keyword arguments -/
  | call (fn : PyExpr) (pos : List PyExpr) (kw : List (String × PyExpr))
  /-- list display -/
  | listE (xs : List PyExpr)
  /-- tuple display -/
  | tupleE (xs : List PyExpr)
  /-- dict display with string keys (the only kind occurring) -/
  | dictE (kvs : List (String × PyExpr))
  /-- binary operation, e.g. `1.0 / 255` -/
  | binop (op : String) (l r : PyExpr)
  deriving Repr, BEq

/-- Assignment targets: plain names, tuple unpacking, or subscripted stores
(the latter never occur in the notebook but must be representable so that
"no mutation" claims are about the data, not the type). -/
inductive PyTarget where
  | one (x : String)
  | tupleT (xs : List PyTarget)
  | subT (base : String) (key : PyExpr)
  deriving Repr, BEq

/-- Python statements, as they occur in the notebook, together with the
statement forms whose absence the specification asserts. -/
inductive PyStmt where
  /-- `import m` / `import m as a` -/
  | imp (module : String) (al : Option String)
  /-- `from m import n1, n2` -/
  | fromImp (module : String) (names : List String)
  /-- assignment -/
  | assign (t : PyTarget) (rhs : PyExpr)
  /-- augmented assignment (`+=` etc.; absent from the notebook) -/
  | augAssign (t : PyTarget) (op : String) (rhs : PyExpr)
  /-- bare expression statement -/
  | exprStmt (e : PyExpr)
  /-- `def` -/
  | funcDef (nm : String) (params : List String) (body : List PyStmt)
  /-- `class` (absent from the notebook) -/
  | classDef (nm : String) (body : List PyStmt)
  /-- `if`/`else` -/
  | ifElse (cond : PyExpr) (thn els : List PyStmt)
  /-- `while` (absent from the notebook) -/
  | whileLoop (cond : PyExpr) (body : List PyStmt)
  /-- `for` (absent from the notebook) -/
  | forLoop (t : PyTarget) (iter : PyExpr) (body : List PyStmt)
  /-- `with ctx:` -/
  | withStmt (ctx : PyExpr) (body : List PyStmt)
  /-- `try`/`except` (absent from the notebook) -/
  | tryExcept (body : List PyStmt) (handlers : List (String × List PyStmt))
  /-- `return` -/
  | ret (e : PyExpr)
  /-- an IPython `!` shell escape line -/
  | shell (cmd : String)
  deriving Repr, BEq

/-- A notebook cell: markdown prose (carrying the Python code blocks shown in
the prose, which are rendered, not executed) or an executable code cell. -/
inductive Cell where
  | markdown (snippets : List (List PyStmt))
  | code (stmts : List PyStmt)
  deriving Repr, BEq

mutual

/-- All subexpressions of an expression, the expression itself included. -/
def PyExpr.subexprs : PyExpr → List PyExpr
  | .num n => [.num n]
  | .floatLit s => [.floatLit s]
  | .str s => [.str s]
  | .pNone => [.pNone]
  | .pBool b => [.pBool b]
  | .name x => [.name x]
  | .attrOf e f => .attrOf e f :: e.subexprs
  | .subscript e k => .subscript e k :: (e.subexprs ++ k.subexprs)
  | .call fn pos kw => .call fn pos kw :: (fn.subexprs ++ subexprList pos ++ subexprKwList kw)
  | .listE xs => .listE xs :: subexprList xs
  | .tupleE xs => .tupleE xs :: subexprList xs
  | .dictE kvs => .dictE kvs :: subexprKwList kvs
  | .binop op l r => .binop op l r :: (l.subexprs ++ r.subexprs)

def subexprList : List PyExpr → List PyExpr
  | [] => []
  | e :: es => e.subexprs ++ subexprList es

def subexprKwList : List (String × PyExpr) → List PyExpr
  | [] => []
  | (_, e) :: es => e.subexprs ++ subexprKwList es

end

mutual

/-- All statements of a statement tree, the statement itself included. -/
def PyStmt.substmts : PyStmt → List PyStmt
  | .imp m a => [.imp m a]
  | .fromImp m ns => [.fromImp m ns]
  | .assign t r => [.assign t r]
  | .augAssign t o r => [.augAssign t o r]
  | .exprStmt e => [.exprStmt e]
  | .funcDef n p b => .funcDef n p b :: substmtList b
  | .classDef n b => .classDef n b :: substmtList b
  | .ifElse c t e => .ifElse c t e :: (substmtList t ++ substmtList e)
  | .whileLoop c b => .whileLoop c b :: substmtList b
  | .forLoop t i b => .forLoop t i b :: substmtList b
  | .withStmt c b => .withStmt c b :: substmtList b
  | .tryExcept b hs => .tryExcept b hs :: (substmtList b ++ substmtHandlers hs)
  | .ret e => [.ret e]
  | .shell c => [.shell c]

def substmtList : List PyStmt → List PyStmt
  | [] => []
  | s :: ss => s.substmts ++ substmtList ss

def substmtHandlers : List (String × List PyStmt) → List PyStmt
  | [] => []
  | (_, b) :: hs => substmtList b ++ substmtHandlers hs

end

/-- The expressions occurring directly in one statement (not recursing into
nested statements; combine with `substmts` for a full scan). -/
def PyStmt.topExprs : PyStmt → List PyExpr
  | .imp _ _ => []
  | .fromImp _ _ => []
  | .assign t r => r :: targetExprs t
  | .augAssign t _ r => r :: targetExprs t
  | .exprStmt e => [e]
  | .funcDef _ _ _ => []
  | .classDef _ _ => []
  | .ifElse c _ _ => [c]
  | .whileLoop c _ => [c]
  | .forLoop t i _ => i :: targetExprs t
  | .withStmt c _ => [c]
  | .tryExcept _ _ => []
  | .ret e => [e]
  | .shell _ => []
where
  targetExprs : PyTarget → List PyExpr
    | .one _ => []
    | .tupleT xs => tlist xs
    | .subT _ k => [k]
  tlist : List PyTarget → List PyExpr
    | [] => []
    | t :: ts => targetExprs t ++ tlist ts

/-! ## Embedding of the notebook's cells

Cell indices follow the order of the `cells` array of the notebook JSON
(0-based).  Cells 0,1,2,7,8,10,12,14,16,18,20,29 are pure prose; cells
5,6,23,24,25,26,27,28 are prose carrying a ```python code block; cells
3,4,9,11,13,15,17,19,21,22 are executable code cells. -/

/-- The layer list of the MNIST convnet, written out verbatim in both the
first training-script code block and in `create_model`. -/
def mnistLayers : List PyExpr :=
  [ .call (.name "keras.Input") [] [("shape", .tupleE [.num 28, .num 28])],
    .call (.name "layers.Rescaling") [.binop "/" (.floatLit "1.0") (.num 255)] [],
    .call (.name "layers.Reshape") [] [("target_shape", .tupleE [.num 28, .num 28, .num 1])],
    .call (.name "layers.Conv2D") [.num 32, .num 3] [("activation", .str "relu")],
    .call (.name "layers.MaxPooling2D") [.num 2] [],
    .call (.name "layers.Conv2D") [.num 32, .num 3] [("activation", .str "relu")],
    .call (.name "layers.MaxPooling2D") [.num 2] [],
    .call (.name "layers.Conv2D") [.num 32, .num 3] [("activation", .str "relu")],
    .call (.name "layers.Flatten") [] [],
    .call (.name "layers.Dense") [.num 128] [("activation", .str "relu")],
    .call (.name "layers.Dense") [.num 10] [] ]

/-- `model.compile(optimizer=..., loss=..., metrics=...)`, verbatim in the
first training-script code block and in `create_model`. -/
def compileStmt : PyStmt :=
  .exprStmt (.call (.name "model.compile") []
    [ ("optimizer", .call (.name "keras.optimizers.Adam") [] []),
      ("loss", .call (.name "keras.losses.SparseCategoricalCrossentropy") []
        [("from_logits", .pBool true)]),
      ("metrics", .call (.name "keras.metrics.SparseCategoricalAccuracy") [] []) ])

/-- `(x_train, y_train), (x_test, y_test) = keras.datasets.mnist.load_data()`. -/
def loadDataStmt : PyStmt :=
  .assign
    (.tupleT [.tupleT [.one "x_train", .one "y_train"],
              .tupleT [.one "x_test", .one "y_test"]])
    (.call (.name "keras.datasets.mnist.load_data") [] [])

/-- Cell 3: `!pip install -q tensorflow_cloud`. -/
def cell3 : List PyStmt := [.shell "pip install -q tensorflow_cloud"]

/-- Cell 4: the imports. -/
def cell4 : List PyStmt :=
  [ .imp "tensorflow" (some "tf"),
    .imp "tensorflow_cloud" (some "tfc"),
    .fromImp "tensorflow" ["keras"],
    .fromImp "tensorflow.keras" ["layers"] ]

/-- The code block shown in markdown cell 5 (the plain training script). -/
def snippet5 : List PyStmt :=
  [ loadDataStmt,
    .assign (.one "model") (.call (.name "keras.Sequential") [.listE mnistLayers] []),
    compileStmt,
    .exprStmt (.call (.name "model.fit") [.name "x_train", .name "y_train"]
      [("epochs", .num 20), ("batch_size", .num 128),
       ("validation_split", .floatLit "0.1")]) ]

/-- The code block shown in markdown cell 6: `tfc.run()`. -/
def snippet6 : List PyStmt := [.exprStmt (.call (.name "tfc.run") [] [])]

/-- The body of `create_model`: build the keras `Sequential` model, compile
it, return it. -/
def createModelBody : List PyStmt :=
  [ .assign (.one "model") (.call (.name "keras.Sequential") [.listE mnistLayers] []),
    compileStmt,
    .ret (.name "model") ]

/-- Cell 9: the definition of `create_model`, the notebook's only `def`. -/
def cell9 : List PyStmt := [.funcDef "create_model" [] createModelBody]

/-- Cell 11: bucket name, checkpoint/tensorboard paths, the callback list,
and `model = create_model()`. -/
def cell11 : List PyStmt :=
  [ .imp "datetime" none,
    .imp "os" none,
    .assign (.one "gcp_bucket") (.str "keras-examples"),
    .assign (.one "checkpoint_path")
      (.call (.name "os.path.join")
        [.str "gs://", .name "gcp_bucket", .str "mnist_example",
         .str "save_at_\x7bepoch\x7d"] []),
    .assign (.one "tensorboard_path")
      (.call (.name "os.path.join")
        [.str "gs://", .name "gcp_bucket", .str "logs",
         .call (.attrOf (.call (.name "datetime.datetime.now") [] []) "strftime")
           [.str "%Y%m%d-%H%M%S"] []] []),
    .assign (.one "callbacks")
      (.listE
        [ .call (.name "keras.callbacks.TensorBoard") []
            [("log_dir", .name "tensorboard_path"), ("histogram_freq", .num 1)],
          .call (.name "keras.callbacks.ModelCheckpoint") [.name "checkpoint_path"] [],
          .call (.name "keras.callbacks.EarlyStopping") []
            [("monitor", .str "val_loss"), ("patience", .num 3)] ]),
    .assign (.one "model") (.call (.name "create_model") [] []) ]

/-- Cell 13: loading the MNIST data. -/
def cell13 : List PyStmt := [loadDataStmt]

/-- Cell 15: the remote/local `fit()` parameter split of the end-to-end
example, followed by the `model.fit` call. -/
def cell15 : List PyStmt :=
  [ .ifElse (.call (.name "tfc.remote") [] [])
      [ .assign (.one "epochs") (.num 100),
        .assign (.one "callbacks") (.name "callbacks"),
        .assign (.one "batch_size") (.num 128) ]
      [ .assign (.one "epochs") (.num 5),
        .assign (.one "batch_size") (.num 64),
        .assign (.one "callbacks") .pNone ],
    .exprStmt (.call (.name "model.fit") [.name "x_train", .name "y_train"]
      [("epochs", .name "epochs"), ("callbacks", .name "callbacks"),
       ("batch_size", .name "batch_size")]) ]

/-- Cell 17: compute `save_path` and save the model only when remote. -/
def cell17 : List PyStmt :=
  [ .assign (.one "save_path")
      (.call (.name "os.path.join") [.str "gs://", .name "gcp_bucket", .str "mnist_example"] []),
    .ifElse (.call (.name "tfc.remote") [] [])
      [.exprStmt (.call (.name "model.save") [.name "save_path"] [])]
      [] ]

/-- Cell 19: `tfc.run(docker_image_bucket_name=gcp_bucket)`. -/
def cell19 : List PyStmt :=
  [.exprStmt (.call (.name "tfc.run") [] [("docker_image_bucket_name", .name "gcp_bucket")])]

/-- Cell 21: `model = keras.models.load_model(save_path)`. -/
def cell21 : List PyStmt :=
  [.assign (.one "model") (.call (.name "keras.models.load_model") [.name "save_path"] [])]

/-- Cell 22: the tensorboard shell invocation. -/
def cell22 : List PyStmt :=
  [ .shell "#docs_infra: no_execute",
    .shell "tensorboard dev upload --logdir \"gs://keras-examples-jonah/logs/fit\" --name \"Guide MNIST\"" ]

/-- The code block shown in markdown cell 23 (multi-file example `run()`). -/
def snippet23 : List PyStmt :=
  [.exprStmt (.call (.name "tfc.run") []
    [ ("docker_image_bucket_name", .name "gcp_bucket"),
      ("entry_point", .str "train_model.py"),
      ("requirements", .str "requirements.txt") ])]

/-- The code block shown in markdown cell 24 (multi-worker `run()`). -/
def snippet24 : List PyStmt :=
  [.exprStmt (.call (.name "tfc.run") []
    [ ("docker_image_bucket_name", .name "gcp_bucket"),
      ("chief_config", .subscript (.name "tfc.COMMON_MACHINE_CONFIGS") (.str "CPU")),
      ("worker_count", .num 2),
      ("worker_config", .subscript (.name "tfc.COMMON_MACHINE_CONFIGS") (.str "T4_4X")) ])]

/-- The code block shown in markdown cell 25 (TPU `run()`). -/
def snippet25 : List PyStmt :=
  [.exprStmt (.call (.name "tfc.run") []
    [ ("docker_image_bucket_name", .name "gcp_bucket"),
      ("chief_config", .subscript (.name "tfc.COMMON_MACHINE_CONFIGS") (.str "CPU")),
      ("worker_count", .num 1),
      ("worker_config", .subscript (.name "tfc.COMMON_MACHINE_CONFIGS") (.str "TPU")) ])]

/-- The code block shown in markdown cell 26 (custom distribution strategy). -/
def snippet26 : List PyStmt :=
  [ loadDataStmt,
    .assign (.one "mirrored_strategy") (.call (.name "tf.distribute.MirroredStrategy") [] []),
    .withStmt (.call (.name "mirrored_strategy.scope") [] [])
      [.assign (.one "model") (.call (.name "create_model") [] [])],
    .ifElse (.call (.name "tfc.remote") [] [])
      [ .assign (.one "epochs") (.num 100),
        .assign (.one "batch_size") (.num 128) ]
      [ .assign (.one "epochs") (.num 10),
        .assign (.one "batch_size") (.num 64),
        .assign (.one "callbacks") .pNone ],
    .exprStmt (.call (.name "model.fit") [.name "x_train", .name "y_train"]
      [("epochs", .name "epochs"), ("callbacks", .name "callbacks"),
       ("batch_size", .name "batch_size")]),
    .exprStmt (.call (.name "tfc.run") []
      [ ("docker_image_bucket_name", .name "gcp_bucket"),
        ("chief_config", .subscript (.name "tfc.COMMON_MACHINE_CONFIGS") (.str "CPU")),
        ("worker_count", .num 2),
        ("worker_config", .subscript (.name "tfc.COMMON_MACHINE_CONFIGS") (.str "T4_4X")),
        ("distribution_strategy", .pNone) ]) ]

/-- The code block shown in markdown cell 27 (custom base Docker image). -/
def snippet27 : List PyStmt :=
  [.exprStmt (.call (.name "tfc.run") []
    [ ("docker_image_bucket_name", .name "gcp_bucket"),
      ("base_docker_image", .str "tensorflow/tensorflow:2.1.0-gpu") ])]

/-- The code block shown in markdown cell 28 (job labels and log streaming). -/
def snippet28 : List PyStmt :=
  [ .assign (.one "job_labels")
      (.dictE [("job", .str "mnist-example"), ("team", .str "keras-io"),
               ("user", .str "jonah")]),
    .exprStmt (.call (.name "tfc.run") []
      [ ("docker_image_bucket_name", .name "gcp_bucket"),
        ("job_labels", .name "job_labels"),
        ("stream_logs", .pBool true) ]) ]

/-- The whole notebook, cells in order. -/
def notebook : List Cell :=
  [ .markdown [], .markdown [], .markdown [],
    .code cell3, .code cell4,
    .markdown [snippet5], .markdown [snippet6], .markdown [], .markdown [],
    .code cell9, .markdown [],
    .code cell11, .markdown [],
    .code cell13, .markdown [],
    .code cell15, .markdown [],
    .code cell17, .markdown [],
    .code cell19, .markdown [],
    .code cell21, .code cell22,
    .markdown [snippet23], .markdown [snippet24], .markdown [snippet25],
    .markdown [snippet26], .markdown [snippet27], .markdown [snippet28],
    .markdown [] ]

/-- Statements appearing anywhere in a cell: an executable code cell's
statements, or the statements of the code blocks rendered in markdown. -/
def Cell.allStmts : Cell → List PyStmt
  | .markdown sn => sn.flatten
  | .code ss => ss

/-- Statements of executable code cells only (markdown code blocks are
rendered prose, never executed by the notebook). -/
def Cell.codeStmts : Cell → List PyStmt
  | .markdown _ => []
  | .code ss => ss

/-- Every statement appearing anywhere in the notebook (snippets included),
nested statements flattened. -/
def notebookStmts : List PyStmt :=
  substmtList (notebook.flatMap Cell.allStmts)

/-- Every statement of the executable code cells, nested statements
flattened. -/
def notebookCodeStmts : List PyStmt :=
  substmtList (notebook.flatMap Cell.codeStmts)

/-- Every expression appearing anywhere in the notebook (snippets
included), subexpressions flattened. -/
def notebookExprs : List PyExpr :=
  subexprList (notebookStmts.flatMap PyStmt.topExprs)

/-! ## Syntactic scans over the embedded notebook -/

/-- Characters before the first occurrence of `c`. -/
def charsBefore (c : Char) : List Char → List Char
  | [] => []
  | d :: ds => if d == c then [] else d :: charsBefore c ds

/-- Characters after the first occurrence of `c`, when there is one. -/
def charsAfter (c : Char) : List Char → Option (List Char)
  | [] => none
  | d :: ds => if d == c then some ds else charsAfter c ds

/-- Does the second character list start with the first? -/
def leadsWith : List Char → List Char → Bool
  | [], _ => true
  | _ :: _, [] => false
  | a :: as, b :: bs => a == b && leadsWith as bs

/-- Does `s` start with `p`? -/
def strStarts (s p : String) : Bool := leadsWith p.data s.data

/-- Does `s` end with `p`? -/
def strEnds (s p : String) : Bool := leadsWith p.data.reverse s.data.reverse

/-- Does `pat` occur as a contiguous sublist? -/
def containsChars (pat : List Char) : List Char → Bool
  | [] => pat.isEmpty
  | c :: cs => leadsWith pat (c :: cs) || containsChars pat cs

/-- The part of a dotted name before the first dot (`keras.Sequential ↦
keras`; an undotted name is its own root). -/
def dottedRoot (s : String) : String := ⟨charsBefore '.' s.data⟩

/-- Every function name that is called anywhere in the notebook (through a
plain, possibly dotted, name). -/
def calledNames : List String :=
  notebookExprs.filterMap fun e =>
    match e with
    | .call (.name f) _ _ => some f
    | _ => none

/-- Every plain-name expression occurrence anywhere in the notebook. -/
def nameRefs : List String :=
  notebookExprs.filterMap fun e =>
    match e with
    | .name x => some x
    | _ => none

/-- The argument lists of every `tfc.run(...)` call in the notebook. -/
def tfcRunArgs : List (List PyExpr × List (String × PyExpr)) :=
  notebookExprs.filterMap fun e =>
    match e with
    | .call (.name "tfc.run") pos kw => some (pos, kw)
    | _ => none

/-- The keyword-argument names of every `tfc.run(...)` call, flattened. -/
def tfcRunKwNames : List String := tfcRunArgs.flatMap fun a => a.2.map Prod.fst

/-- The keyword-argument values of every `tfc.run(...)` call, flattened. -/
def tfcRunKwValues : List PyExpr := tfcRunArgs.flatMap fun a => a.2.map Prod.snd

/-- The documented call surface of `run()` as the spec enumerates it:
Docker-image bucket, entry point, requirements file, the machine
configuration selectors, base Docker image, job labels, log streaming. -/
def runDocumentedKwargs : List String :=
  [ "docker_image_bucket_name", "entry_point", "requirements",
    "chief_config", "worker_count", "worker_config", "distribution_strategy",
    "base_docker_image", "job_labels", "stream_logs" ]

/-- Is an expression the `tfc.COMMON_MACHINE_CONFIGS[...]` selector? -/
def isCommonCfg : PyExpr → Bool
  | .subscript (.name "tfc.COMMON_MACHINE_CONFIGS") _ => true
  | _ => false

/-- All modules imported by `import` statements of the notebook. -/
def importedModules : List String :=
  notebookStmts.filterMap fun s =>
    match s with
    | .imp m _ => some m
    | _ => none

/-- All names brought in by `from ... import ...` statements. -/
def fromImportedNames : List String :=
  notebookStmts.flatMap fun s =>
    match s with
    | .fromImp _ ns => ns
    | _ => []

/-- All `if` conditions occurring in the notebook. -/
def ifConditions : List PyExpr :=
  notebookStmts.filterMap fun s =>
    match s with
    | .ifElse c _ _ => some c
    | _ => none

/-- All `def`s occurring in the notebook with their bodies. -/
def funcDefs : List (String × List PyStmt) :=
  notebookStmts.filterMap fun s =>
    match s with
    | .funcDef n _ b => some (n, b)
    | _ => none

/-- All shell-escape lines of the notebook. -/
def shellLines : List String :=
  notebookStmts.filterMap fun s =>
    match s with
    | .shell c => some c
    | _ => none

/-- Statement-form counters for the constructs the spec asserts to be
absent. -/
def countTry : Nat :=
  notebookStmts.countP fun s =>
    match s with
    | .tryExcept _ _ => true
    | _ => false

def countLoops : Nat :=
  notebookStmts.countP fun s =>
    match s with
    | .whileLoop _ _ => true
    | .forLoop _ _ _ => true
    | _ => false

def countClassDefs : Nat :=
  notebookStmts.countP fun s =>
    match s with
    | .classDef _ _ => true
    | _ => false

def countAugAssign : Nat :=
  notebookStmts.countP fun s =>
    match s with
    | .augAssign _ _ _ => true
    | _ => false

/-- Assignments whose target stores through a subscript (mutation of a
container in place), anywhere in the notebook. -/
def countSubscriptStores : Nat :=
  notebookStmts.countP fun s =>
    match s with
    | .assign (.subT _ _) _ => true
    | .augAssign (.subT _ _) _ _ => true
    | _ => false

/-- Assignments binding a given plain name, anywhere in the notebook. -/
def assignsTo (x : String) : List PyStmt :=
  notebookStmts.filter fun s =>
    match s with
    | .assign (.one y) _ => y == x
    | _ => false

/-! ## An operational semantics for the notebook's Python fragment

The interpreter is parameterised by the Boolean the external `tfc.remote()`
call returns (the one aspect of the environment the notebook branches on).
External-library calls produce inert `vext` values recording the call;
`model.fit`, `model.save`, `keras.models.load_model` and `tfc.run` also
emit trace events, since those are the externally observable operations the
specification talks about.  Evaluation is fuel-indexed to make the
interpreter structurally total. -/

/-- Runtime values. -/
inductive Value where
  | vnat (n : Nat)
  | vstr (s : String)
  | vnone
  | vbool (b : Bool)
  /-- a floating-point literal, kept as text, never computed on -/
  | vfloat (lit : String)
  | vlist (vs : List Value)
  | vtuple (vs : List Value)
  | vdict (kvs : List (String × Value))
  /-- an inert value produced by an external library: constructor/attribute
  tag plus the evaluated positional and keyword arguments -/
  | vext (tag : String) (pos : List Value) (kw : List (String × Value))
  /-- a user-defined Python function -/
  | vfunc (params : List String) (body : List PyStmt)
  /-- an imported module object -/
  | vmodule (m : String)
  deriving Repr, BEq

/-- Externally observable events of a notebook run. -/
inductive Ev where
  | fit (pos : List Value) (kw : List (String × Value))
  | save (path : Value)
  | load (path : Value)
  | runJob (kw : List (String × Value))
  deriving Repr, BEq

/-- Runtime errors. -/
inductive Err where
  | nameError (x : String)
  | typeError (s : String)
  | outOfFuel
  deriving Repr, BEq

/-- A variable environment, most recent binding first. -/
abbrev Env := List (String × Value)

/-- Look a name up in the environment. -/
def lookupEnv (env : Env) (x : String) : Option Value :=
  match env with
  | [] => none
  | (y, v) :: rest => if y == x then some v else lookupEnv rest x

/-- `os.path.join` on two components, POSIX flavour: an absolute second
component restarts the path, and a separator is inserted only when the
accumulated path does not already end in one. -/
def joinTwo (a b : String) : String :=
  if strStarts b "/" then b
  else if a.isEmpty || strEnds a "/" then a ++ b
  else a ++ "/" ++ b

/-- `os.path.join` on a component list. -/
def posixJoin : List String → String
  | [] => ""
  | p :: ps => ps.foldl joinTwo p

/-- Are all values strings?  (Used to decide whether `os.path.join` can be
computed or must stay inert.) -/
def allStrings : List Value → Option (List String)
  | [] => some []
  | .vstr s :: vs => (allStrings vs).map (s :: ·)
  | _ => none

/-- What `keras.datasets.mnist.load_data()` returns, as far as its shape is
observable in the notebook: the documented pair of (train, test) pairs,
with opaque array contents. -/
def mnistData : Value :=
  .vtuple [.vtuple [.vext "mnist.x_train" [] [], .vext "mnist.y_train" [] []],
           .vtuple [.vext "mnist.x_test" [] [], .vext "mnist.y_test" [] []]]

/-- The dotted part of a name after its root (`model.fit ↦ fit`). -/
def dottedRest (s : String) : String := ⟨(charsAfter '.' s.data).getD []⟩

mutual

/-- Bind an assignment target to a value (tuple unpacking included). -/
def bindTarget : PyTarget → Value → Env → Except Err Env
  | .one x, v, env => .ok ((x, v) :: env)
  | .tupleT ts, .vtuple vs, env => bindTargets ts vs env
  | .tupleT _, _, _ => .error (.typeError "cannot unpack non-tuple")
  | .subT _ _, _, _ => .error (.typeError "subscript store unsupported")

def bindTargets : List PyTarget → List Value → Env → Except Err Env
  | [], [], env => .ok env
  | t :: ts, v :: vs, env =>
      match bindTarget t v env with
      | .ok env2 => bindTargets ts vs env2
      | .error e => .error e
  | _, _, _ => .error (.typeError "unpack arity mismatch")

end

mutual

/-- Evaluate an expression; returns its value and the emitted events. -/
def evalExpr : Nat → Bool → Env → PyExpr → Except Err (Value × List Ev)
  | 0, _, _, _ => .error .outOfFuel
  | fuel + 1, r, env, e =>
    match e with
    | .num n => .ok (.vnat n, [])
    | .floatLit s => .ok (.vfloat s, [])
    | .str s => .ok (.vstr s, [])
    | .pNone => .ok (.vnone, [])
    | .pBool b => .ok (.vbool b, [])
    | .name x =>
        if (dottedRest x).isEmpty then
          match lookupEnv env x with
          | some v => .ok (v, [])
          | none => .error (.nameError x)
        else
          match lookupEnv env (dottedRoot x) with
          | some _ => .ok (.vext x [] [], [])
          | none => .error (.nameError (dottedRoot x))
    | .attrOf b f =>
        match evalExpr fuel r env b with
        | .ok (v, evs) => .ok (.vext ("attr:" ++ f) [v] [], evs)
        | .error err => .error err
    | .subscript b k =>
        match evalExpr fuel r env b with
        | .ok (bv, evs1) =>
            match evalExpr fuel r env k with
            | .ok (kv, evs2) => .ok (.vext "getitem" [bv, kv] [], evs1 ++ evs2)
            | .error err => .error err
        | .error err => .error err
    | .listE xs =>
        match evalArgs fuel r env xs with
        | .ok (vs, evs) => .ok (.vlist vs, evs)
        | .error err => .error err
    | .tupleE xs =>
        match evalArgs fuel r env xs with
        | .ok (vs, evs) => .ok (.vtuple vs, evs)
        | .error err => .error err
    | .dictE kvs =>
        match evalKw fuel r env kvs with
        | .ok (vs, evs) => .ok (.vdict vs, evs)
        | .error err => .error err
    | .binop op l rhs =>
        match evalExpr fuel r env l with
        | .ok (lv, evs1) =>
            match evalExpr fuel r env rhs with
            | .ok (rv, evs2) => .ok (.vext ("binop" ++ op) [lv, rv] [], evs1 ++ evs2)
            | .error err => .error err
        | .error err => .error err
    | .call fn pos kw =>
        match evalArgs fuel r env pos with
        | .ok (pvs, evs1) =>
            match evalKw fuel r env kw with
            | .ok (kvs, evs2) =>
                match applyCall fuel r env fn pvs kvs with
                | .ok (v, evs3) => .ok (v, evs1 ++ evs2 ++ evs3)
                | .error err => .error err
            | .error err => .error err
        | .error err => .error err

/-- Evaluate a list of expressions, left to right. -/
def evalArgs : Nat → Bool → Env → List PyExpr → Except Err (List Value × List Ev)
  | 0, _, _, _ => .error .outOfFuel
  | _ + 1, _, _, [] => .ok ([], [])
  | fuel + 1, r, env, e :: es =>
      match evalExpr fuel r env e with
      | .ok (v, evs1) =>
          match evalArgs fuel r env es with
          | .ok (vs, evs2) => .ok (v :: vs, evs1 ++ evs2)
          | .error err => .error err
      | .error err => .error err

/-- Evaluate keyword arguments, left to right. -/
def evalKw : Nat → Bool → Env → List (String × PyExpr) →
    Except Err (List (String × Value) × List Ev)
  | 0, _, _, _ => .error .outOfFuel
  | _ + 1, _, _, [] => .ok ([], [])
  | fuel + 1, r, env, (k, e) :: es =>
      match evalExpr fuel r env e with
      | .ok (v, evs1) =>
          match evalKw fuel r env es with
          | .ok (vs, evs2) => .ok ((k, v) :: vs, evs1 ++ evs2)
          | .error err => .error err
      | .error err => .error err

/-- Apply a callee (already-evaluated arguments) and dispatch the external
calls the notebook makes. -/
def applyCall : Nat → Bool → Env → PyExpr → List Value → List (String × Value) →
    Except Err (Value × List Ev)
  | 0, _, _, _, _, _ => .error .outOfFuel
  | fuel + 1, r, env, fn, pvs, kvs =>
    match fn with
    | .name f =>
        match lookupEnv env (dottedRoot f) with
        | none => .error (.nameError (dottedRoot f))
        | some rootVal =>
            if f == "tfc.remote" then .ok (.vbool r, [])
            else if f == "tfc.run" then .ok (.vnone, [.runJob kvs])
            else if f == "os.path.join" then
              match allStrings pvs with
              | some parts => .ok (.vstr (posixJoin parts), [])
              | none => .ok (.vext f pvs kvs, [])
            else if f == "keras.datasets.mnist.load_data" then .ok (mnistData, [])
            else if f == "keras.models.load_model" then
              match pvs with
              | [p] => .ok (.vext f pvs kvs, [.load p])
              | _ => .error (.typeError "load_model arity")
            else if (dottedRest f).isEmpty then
              match rootVal with
              | .vfunc params body =>
                  match bindTargets (params.map .one) pvs env with
                  | .ok env2 =>
                      match execStmts fuel r env2 body with
                      | .ok (_, evs, retv) => .ok (retv.getD .vnone, evs)
                      | .error err => .error err
                  | .error err => .error err
              | _ => .error (.typeError "calling a non-function")
            else
              match rootVal with
              | .vmodule _ => .ok (.vext f pvs kvs, [])
              | _ =>
                  if dottedRest f == "fit" then .ok (.vext "History" [] [], [.fit pvs kvs])
                  else if dottedRest f == "save" then
                    match pvs with
                    | [p] => .ok (.vnone, [.save p])
                    | _ => .error (.typeError "save arity")
                  else if dottedRest f == "compile" then .ok (.vnone, [])
                  else .ok (.vext f pvs kvs, [])
    | .attrOf b f =>
        match evalExpr fuel r env b with
        | .ok (bv, evs) => .ok (.vext ("method:" ++ f) (bv :: pvs) kvs, evs)
        | .error err => .error err
    | _ => .error (.typeError "unsupported callee")

/-- Execute one statement. -/
def execStmt : Nat → Bool → Env → PyStmt → Except Err (Env × List Ev × Option Value)
  | 0, _, _, _ => .error .outOfFuel
  | fuel + 1, r, env, s =>
    match s with
    | .imp m al => .ok (((al.getD m, .vmodule m) :: env), [], none)
    | .fromImp m ns => .ok ((ns.map fun n => (n, Value.vmodule (m ++ "." ++ n))) ++ env, [], none)
    | .assign t rhs =>
        match evalExpr fuel r env rhs with
        | .ok (v, evs) =>
            match bindTarget t v env with
            | .ok env2 => .ok (env2, evs, none)
            | .error err => .error err
        | .error err => .error err
    | .augAssign _ _ _ => .error (.typeError "augmented assignment unsupported")
    | .exprStmt e =>
        match evalExpr fuel r env e with
        | .ok (_, evs) => .ok (env, evs, none)
        | .error err => .error err
    | .funcDef n params body => .ok ((n, .vfunc params body) :: env, [], none)
    | .classDef _ _ => .error (.typeError "class unsupported")
    | .ifElse c thn els =>
        match evalExpr fuel r env c with
        | .ok (.vbool b, evs) =>
            match execStmts fuel r env (if b then thn else els) with
            | .ok (env2, evs2, retv) => .ok (env2, evs ++ evs2, retv)
            | .error err => .error err
        | .ok _ => .error (.typeError "non-boolean condition")
        | .error err => .error err
    | .whileLoop _ _ => .error (.typeError "while unsupported")
    | .forLoop _ _ _ => .error (.typeError "for unsupported")
    | .withStmt c body =>
        match evalExpr fuel r env c with
        | .ok (_, evs) =>
            match execStmts fuel r env body with
            | .ok (env2, evs2, retv) => .ok (env2, evs ++ evs2, retv)
            | .error err => .error err
        | .error err => .error err
    | .tryExcept _ _ => .error (.typeError "try unsupported")
    | .ret e =>
        match evalExpr fuel r env e with
        | .ok (v, evs) => .ok (env, evs, some v)
        | .error err => .error err
    | .shell _ => .ok (env, [], none)

/-- Execute a statement list, stopping at the first `return`. -/
def execStmts : Nat → Bool → Env → List PyStmt → Except Err (Env × List Ev × Option Value)
  | 0, _, _, _ => .error .outOfFuel
  | _ + 1, _, env, [] => .ok (env, [], none)
  | fuel + 1, r, env, s :: ss =>
      match execStmt fuel r env s with
      | .ok (env2, evs, some v) => .ok (env2, evs, some v)
      | .ok (env2, evs, none) =>
          match execStmts fuel r env2 ss with
          | .ok (env3, evs2, retv) => .ok (env3, evs ++ evs2, retv)
          | .error err => .error err
      | .error err => .error err

end

/-! ## Notebook runs and traces -/

/-- Fuel bound; ample for the notebook's recursion depth. -/
def fuel0 : Nat := 300

/-- The statements of the executable code cells, in notebook order. -/
def allCodeStmts : List PyStmt := notebook.flatMap Cell.codeStmts

/-- A run of the notebook's executable code cells from an empty
environment, under a given `tfc.remote()` answer. -/
def notebookRun (r : Bool) : Except Err (Env × List Ev × Option Value) :=
  execStmts fuel0 r [] allCodeStmts

/-- The event trace of a notebook run (empty on error). -/
def notebookEvents (r : Bool) : List Ev :=
  match notebookRun r with
  | .ok (_, evs, _) => evs
  | .error _ => []

/-- Did an interpreter run complete without error? -/
def exceptOk {α : Type} : Except Err α → Bool
  | .ok _ => true
  | .error _ => false

/-- The Cloud Storage locations written by a trace (`model.save`). -/
def writesOf (evs : List Ev) : List Value :=
  evs.filterMap fun e =>
    match e with
    | .save p => some p
    | _ => none

/-- The Cloud Storage locations read back by a trace
(`keras.models.load_model`). -/
def readsOf (evs : List Ev) : List Value :=
  evs.filterMap fun e =>
    match e with
    | .load p => some p
    | _ => none

/-- The `model.fit` events of a trace with their arguments. -/
def fitsOf (evs : List Ev) : List Ev :=
  evs.filter fun e =>
    match e with
    | .fit _ _ => true
    | _ => false

/-- Is an event a save (bucket write)? -/
def isSaveEv : Ev → Bool
  | .save _ => true
  | _ => false

/-- Is an event a load (bucket read-back)? -/
def isLoadEv : Ev → Bool
  | .load _ => true
  | _ => false

/-- A bucket modelled as the list of locations written so far; a trace
extends it by its writes, reads leave it unchanged. -/
def bucketAfter (b : List String) (evs : List Ev) : List String :=
  b ++ (writesOf evs).filterMap fun v =>
    match v with
    | .vstr p => some p
    | _ => none

/-- The save/load path of the end-to-end example:
`os.path.join("gs://", "keras-examples", "mnist_example")`. -/
def savePathStr : String := "gs://keras-examples/mnist_example"

/-- Opaque MNIST training inputs as passed to `model.fit`. -/
def xTrainVal : Value := .vext "mnist.x_train" [] []

def yTrainVal : Value := .vext "mnist.y_train" [] []

/-- The runtime value of the `TensorBoard` callback built in cell 11 (its
log dir stays inert because of the `datetime` timestamp). -/
def tbVal : Value :=
  .vext "keras.callbacks.TensorBoard" []
    [ ("log_dir",
        .vext "os.path.join"
          [ .vstr "gs://", .vstr "keras-examples", .vstr "logs",
            .vext "method:strftime"
              [.vext "datetime.datetime.now" [] [], .vstr "%Y%m%d-%H%M%S"] [] ]
          []),
      ("histogram_freq", .vnat 1) ]

/-- The runtime value of the `ModelCheckpoint` callback built in cell 11. -/
def ckptVal : Value :=
  .vext "keras.callbacks.ModelCheckpoint"
    [.vstr "gs://keras-examples/mnist_example/save_at_\x7bepoch\x7d"] []

/-- The runtime value of the `EarlyStopping` callback built in cell 11. -/
def esVal : Value :=
  .vext "keras.callbacks.EarlyStopping" []
    [("monitor", .vstr "val_loss"), ("patience", .vnat 3)]

/-- The bindings a reader of the guide has from the earlier cells when
reaching the custom-distribution-strategy example: the imported modules,
`create_model`, and the bucket name — deliberately without `callbacks`,
which only cell 11 binds. -/
def snippetBaseEnv : Env :=
  [ ("gcp_bucket", .vstr "keras-examples"),
    ("create_model", .vfunc [] createModelBody),
    ("tf", .vmodule "tensorflow"),
    ("tfc", .vmodule "tensorflow_cloud"),
    ("keras", .vmodule "tensorflow.keras"),
    ("layers", .vmodule "tensorflow.keras.layers"),
    ("os", .vmodule "os"),
    ("datetime", .vmodule "datetime") ]

/-! ## Further static scans -/

/-- All expressions (subexpressions included) occurring in a statement
list, nested statements included. -/
def exprsIn (ss : List PyStmt) : List PyExpr :=
  subexprList ((substmtList ss).flatMap PyStmt.topExprs)

/-- All function names called through plain names in a statement list. -/
def calledNamesIn (ss : List PyStmt) : List String :=
  (exprsIn ss).filterMap fun e =>
    match e with
    | .call (.name f) _ _ => some f
    | _ => none

/-- Assignments binding a given plain name within a statement list
(nested statements included). -/
def assignsToIn (x : String) (ss : List PyStmt) : List PyStmt :=
  (substmtList ss).filter fun s =>
    match s with
    | .assign (.one y) _ => y == x
    | _ => false

/-- The statements of the remote (`tfc.remote()` true) branches of a
statement list. -/
def remoteBranches (ss : List PyStmt) : List PyStmt :=
  (substmtList ss).flatMap fun s =>
    match s with
    | .ifElse (.call (.name "tfc.remote") [] []) thn _ => thn
    | _ => []

/-- The statements of the local (`tfc.remote()` false) branches of a
statement list. -/
def localBranches (ss : List PyStmt) : List PyStmt :=
  (substmtList ss).flatMap fun s =>
    match s with
    | .ifElse (.call (.name "tfc.remote") [] []) _ els => els
    | _ => []

mutual

/-- Does an assignment target only bind plain local names (no subscripted
store)? -/
def targetBindsNames : PyTarget → Bool
  | .one _ => true
  | .tupleT ts => targetsBindNames ts
  | .subT _ _ => false

def targetsBindNames : List PyTarget → Bool
  | [] => true
  | t :: ts => targetBindsNames t && targetsBindNames ts

end

/-- The statement forms a purely delegating tutorial cell may use: imports,
local name bindings, bare external calls, a branch on an external call, the
single `create_model` definition returning a bound name, and shell lines
invoking `pip` or `tensorboard` (or shell comments). -/
def delegatedForm : PyStmt → Bool
  | .imp _ _ => true
  | .fromImp _ _ => true
  | .assign t _ => targetBindsNames t
  | .exprStmt (.call _ _ _) => true
  | .ifElse (.call _ _ _) _ _ => true
  | .funcDef n _ _ => n == "create_model"
  | .ret (.name _) => true
  | .shell c =>
      (String.mk (charsBefore ' ' c.data) == "pip") ||
      (String.mk (charsBefore ' ' c.data) == "tensorboard") ||
      strStarts c "#"
  | _ => false

/-- The roots a call in the notebook may have: the imported external
packages, the locally bound model objects (each bound only from keras/tf
constructors), and the keras-delegating `create_model`. -/
def allowedCallRoots : List String :=
  ["tf", "tfc", "keras", "layers", "os", "datetime",
   "model", "mirrored_strategy", "create_model"]

/-- Does `sub` occur as a substring of `s`? -/
def containsSub (s sub : String) : Bool := containsChars sub.data s.data

/-- Is an expression the `keras.callbacks.EarlyStopping(...)` call? -/
def isEarlyStoppingCall : PyExpr → Bool
  | .call (.name "keras.callbacks.EarlyStopping") _ _ => true
  | _ => false

/-! ## The distribution-strategy selection prose of cell 24

Cell 24 ("Machine configuration and distributed training") states, after
the multi-worker example: "By default, TensorFlow Cloud chooses the best
distribution strategy for your machine configuration with a simple formula
using the `chief_config`, `worker_config` and `worker_count` parameters
provided", followed by three bullets:

  - If the number of GPUs specified is greater than zero,
    `tf.distribute.MirroredStrategy` will be chosen.
  - If the number of workers is greater than zero,
    `tf.distribute.experimental.MultiWorkerMirroredStrategy` or
    `tf.distribute.TPUStrategy` will be chosen based on the accelerator type.
  - Otherwise, `tf.distribute.OneDeviceStrategy` will be chosen.

These bullets are embedded below as a relation between the machine
configuration parameters and the strategies the bullets designate, each
bullet read as an independent conditional, and the second bullet's "based
on the accelerator type" read as selecting TPUStrategy precisely for a TPU
accelerator. -/

/-- The strategies named by cell 24's bullets. -/
inductive DistStrategy where
  | mirrored
  | multiWorkerMirrored
  | tpuStrategy
  | oneDevice
  deriving Repr, BEq, DecidableEq

/-- Accelerator kinds distinguished by the `COMMON_MACHINE_CONFIGS`
selectors used in the guide (`CPU`, `T4_4X`, `TPU`). -/
inductive AccelType where
  | cpu
  | gpu
  | tpu
  deriving Repr, BEq, DecidableEq

/-- Does cell 24's decision prose designate strategy `s` for a machine
configuration with `numGpus` GPUs specified, `workerCount` workers, and
worker accelerator `accel`?  Direct transcription of the three bullets. -/
def strategyAdmits (numGpus workerCount : Nat) (accel : AccelType) (s : DistStrategy) : Bool :=
  (decide (0 < numGpus) && (s == .mirrored)) ||
  (decide (0 < workerCount) &&
    (if accel == .tpu then s == .tpuStrategy else s == .multiWorkerMirrored)) ||
  (numGpus == 0 && workerCount == 0 && (s == .oneDevice))

/-- All strategies the prose rules designate for one configuration. -/
def admissibleStrategies (numGpus workerCount : Nat) (accel : AccelType) : List DistStrategy :=
  [DistStrategy.mirrored, DistStrategy.multiWorkerMirrored,
   DistStrategy.tpuStrategy, DistStrategy.oneDevice].filter
    (strategyAdmits numGpus workerCount accel)

set_option maxRecDepth 100000

set_option maxHeartbeats 2000000

/-! ## Claim theorems -/


/-- C1 (counterexample to the claim as stated): the repository does give
decision rules mapping the machine-configuration parameters to a chosen
distribution strategy — the three bullets of cell 24, embedded as
`strategyAdmits` — and for the no-GPU, no-worker configuration they
designate exactly `tf.distribute.OneDeviceStrategy`. -/
theorem strategy_rules_present :
    admissibleStrategies 0 0 AccelType.cpu = [DistStrategy.oneDevice] := by rfl

/-- C1 (amended): decision bullets are given in cell 24, but they
underdetermine the choice: for the guide's own multi-worker example (a
positive GPU count together with a positive worker count, e.g. two
`T4_4X` workers) the first bullet designates `MirroredStrategy` while the
second designates `MultiWorkerMirroredStrategy`, so the heuristic is not
specified precisely enough to be a single-valued, implementable target. -/
theorem strategy_rules_underdetermined :
    admissibleStrategies 8 2 AccelType.gpu =
      [DistStrategy.mirrored, DistStrategy.multiWorkerMirrored] ∧
    DistStrategy.mirrored ≠ DistStrategy.multiWorkerMirrored :=
  ⟨by rfl, by decide⟩

/-- C2 (counterexample to the claim as stated): the notebook does contain
an operation that writes a value to a location a later operation reads
back from: cell 17 saves the model to `save_path`, cell 21 loads from the
same `save_path`, both resolving to `gs://keras-examples/mnist_example`,
and in the remote run the save event precedes the load event. -/
theorem save_then_load_roundtrip :
    ((substmtList cell17).countP fun s =>
      match s with
      | .exprStmt (.call (.name "model.save") [.name "save_path"] []) => true
      | _ => false) = 1 ∧
    ((substmtList cell21).countP fun s =>
      match s with
      | .assign _ (.call (.name "keras.models.load_model") [.name "save_path"] []) => true
      | _ => false) = 1 ∧
    notebook[17]? = some (.code cell17) ∧
    notebook[21]? = some (.code cell21) ∧
    writesOf (notebookEvents true) = [.vstr savePathStr] ∧
    readsOf (notebookEvents true) = [.vstr savePathStr] ∧
    (notebookEvents true).findIdx isSaveEv < (notebookEvents true).findIdx isLoadEv :=
  ⟨by rfl, by rfl, by rfl, by rfl, by rfl, by rfl, by decide⟩

/-- C2 (amended): the notebook has exactly one write/read-back pair — the
remote-gated `model.save(save_path)` and the later
`keras.models.load_model(save_path)`, both on
`gs://keras-examples/mnist_example`; a local run writes nothing, and no
other location is written or read back in either run. -/
theorem roundtrip_unique :
    writesOf (notebookEvents true) = [.vstr savePathStr] ∧
    readsOf (notebookEvents true) = [.vstr savePathStr] ∧
    writesOf (notebookEvents false) = [] ∧
    readsOf (notebookEvents false) = [.vstr savePathStr] ∧
    savePathStr = "gs://keras-examples/mnist_example" :=
  ⟨by rfl, by rfl, by rfl, by rfl, by rfl⟩

/-- C3: every reference to the external SDK (`tfc.`-rooted name) in the
notebook is `run`, `remote` or the `COMMON_MACHINE_CONFIGS` selector
table; every call through such a name is `tfc.run` or `tfc.remote`;
`run()` is never given positional arguments; and every keyword argument
of every `run()` call in the notebook is drawn from the documented call
surface. -/
theorem tfc_call_surface :
    ((nameRefs.filter fun x => dottedRoot x == "tfc").all fun x =>
      x == "tfc.run" || x == "tfc.remote" || x == "tfc.COMMON_MACHINE_CONFIGS") = true ∧
    ((calledNames.filter fun f => dottedRoot f == "tfc").all fun f =>
      f == "tfc.run" || f == "tfc.remote") = true ∧
    (tfcRunArgs.all fun a => a.1.isEmpty) = true ∧
    (tfcRunKwNames.all fun k => runDocumentedKwargs.contains k) = true :=
  ⟨by rfl, by rfl, by rfl, by rfl⟩

/-- C4: every statement of every executable code cell is an import, a
local name binding, a bare call, a branch on a call, the single
`create_model` definition, a `return` of a bound name, or a
pip/tensorboard shell line; every call anywhere in the notebook targets an
imported external package, one of the two locally bound external objects
(`model`, `mirrored_strategy`), or `create_model`; `create_model` is the
only locally defined function and every call in its body goes to
keras/layers or the keras-built `model`; and `model` and
`mirrored_strategy` are only ever bound from keras/tf constructors. -/
theorem cells_delegate_to_external :
    (notebookCodeStmts.all delegatedForm) = true ∧
    (calledNames.all fun f => allowedCallRoots.contains (dottedRoot f)) = true ∧
    funcDefs.map Prod.fst = ["create_model"] ∧
    ((calledNamesIn createModelBody).all fun f =>
      dottedRoot f == "keras" || dottedRoot f == "layers" || dottedRoot f == "model") = true ∧
    ((assignsTo "model").all fun s =>
      match s with
      | .assign _ (.call (.name f) _ _) =>
          f == "keras.Sequential" || f == "create_model" || f == "keras.models.load_model"
      | _ => false) = true ∧
    ((assignsTo "mirrored_strategy").all fun s =>
      match s with
      | .assign _ (.call (.name f) _ _) => f == "tf.distribute.MirroredStrategy"
      | _ => false) = true :=
  ⟨by rfl, by rfl, by rfl, by rfl, by rfl, by rfl⟩

/-- C5: the notebook has no try/except, no loop (hence no retry logic),
every `if` condition is the `tfc.remote()` check (so no error-code
check), and the only failure-related construct is the single
`EarlyStopping(monitor="val_loss", patience=3)` callback. -/
theorem no_failure_handling_beyond_earlystopping :
    countTry = 0 ∧ countLoops = 0 ∧
    ifConditions = [.call (.name "tfc.remote") [] [],
                    .call (.name "tfc.remote") [] [],
                    .call (.name "tfc.remote") [] []] ∧
    notebookExprs.filter isEarlyStoppingCall =
      [.call (.name "keras.callbacks.EarlyStopping") []
        [("monitor", .str "val_loss"), ("patience", .num 3)]] :=
  ⟨by rfl, by rfl, by rfl, by rfl⟩

/-- C6: the `job_labels` dictionary is constructed exactly once (in the
cell-28 example, as a literal), its name is read exactly once in the whole
notebook — as a keyword argument of the `tfc.run` call — the notebook
contains no augmented assignment and no subscripted store (so no dict is
ever mutated), and every `COMMON_MACHINE_CONFIGS` selector occurrence is a
direct keyword-argument value of a `tfc.run` call. -/
theorem config_dicts_passed_unmodified :
    notebook[28]? = some (.markdown [snippet28]) ∧
    assignsTo "job_labels" = [.assign (.one "job_labels")
      (.dictE [("job", .str "mnist-example"), ("team", .str "keras-io"),
               ("user", .str "jonah")])] ∧
    nameRefs.filter (· == "job_labels") = ["job_labels"] ∧
    (tfcRunKwValues.countP fun e =>
      match e with
      | .name x => x == "job_labels"
      | _ => false) = 1 ∧
    countAugAssign = 0 ∧ countSubscriptStores = 0 ∧
    notebookExprs.countP isCommonCfg = tfcRunKwValues.countP isCommonCfg :=
  ⟨by rfl, by rfl, by rfl, by rfl, by rfl, by rfl, by rfl⟩

/-- C7: the notebook imports only tensorflow, tensorflow_cloud, datetime
and os (plus keras/layers), references no thread, process, lock, or
cancellation construct anywhere, the only distribution-related call is the
construction of `tf.distribute.MirroredStrategy`, and the `worker_count`
keyword occurs only on `tfc.run` calls. -/
theorem no_concurrency_constructs :
    importedModules = ["tensorflow", "tensorflow_cloud", "datetime", "os"] ∧
    fromImportedNames = ["keras", "layers"] ∧
    ((calledNames ++ nameRefs).all fun f =>
      !(containsSub f "threading") && !(containsSub f "multiprocessing") &&
      !(containsSub f "asyncio") && !(containsSub f "Thread") &&
      !(containsSub f "Lock") && !(containsSub f "Process") &&
      !(containsSub f "cancel")) = true ∧
    calledNames.filter (fun f => containsSub f "distribute") =
      ["tf.distribute.MirroredStrategy"] ∧
    (notebookExprs.countP fun e =>
      match e with
      | .call (.name "tfc.run") _ _ => false
      | .call _ _ kw => kw.any (fun p => p.1 == "worker_count")
      | _ => false) = 0 :=
  ⟨by rfl, by rfl, by rfl, by rfl, by rfl⟩

/-- C8: in a run of the notebook's code cells, the single `model.fit`
call receives epochs 100, batch size 128 and the three cell-11 callbacks
(TensorBoard, ModelCheckpoint, EarlyStopping) exactly when `tfc.remote()`
answers true, and epochs 5, batch size 64 and `callbacks=None` exactly
when it answers false; both runs complete without error. -/
theorem fit_args_track_remote :
    fitsOf (notebookEvents true) =
      [.fit [xTrainVal, yTrainVal]
        [("epochs", .vnat 100), ("callbacks", .vlist [tbVal, ckptVal, esVal]),
         ("batch_size", .vnat 128)]] ∧
    fitsOf (notebookEvents false) =
      [.fit [xTrainVal, yTrainVal]
        [("epochs", .vnat 5), ("callbacks", .vnone), ("batch_size", .vnat 64)]] ∧
    exceptOk (notebookRun true) = true ∧ exceptOk (notebookRun false) = true :=
  ⟨by rfl, by rfl, by rfl, by rfl⟩

/-- C9: the model is saved to `gs://keras-examples/mnist_example` exactly
in the remote run; a local run performs no write at all, so any bucket
state is left unchanged; and in both runs the path later passed to
`keras.models.load_model` is the very path the remote save wrote. -/
theorem save_gated_by_remote :
    writesOf (notebookEvents true) = [.vstr savePathStr] ∧
    writesOf (notebookEvents false) = [] ∧
    readsOf (notebookEvents true) = [.vstr savePathStr] ∧
    readsOf (notebookEvents false) = [.vstr savePathStr] ∧
    (∀ b : List String, bucketAfter b (notebookEvents false) = b) ∧
    savePathStr = "gs://keras-examples/mnist_example" := by
  refine ⟨by rfl, by rfl, by rfl, by rfl, ?_, by rfl⟩
  intro b
  have h : bucketAfter b (notebookEvents false) = b ++ [] := by rfl
  rw [h, List.append_nil]

/-- C10: in the custom-distribution-strategy example cell, `callbacks` is
assigned only in the non-remote branch (to `None`); with the bindings the
earlier cells provide short of `callbacks`, the cell's remote run fails
with a name error on `callbacks` while its local run completes, and an
outside binding of `callbacks` lets the remote run complete. -/
theorem remote_branch_missing_callbacks :
    assignsToIn "callbacks" snippet26 = [.assign (.one "callbacks") .pNone] ∧
    assignsToIn "callbacks" (remoteBranches snippet26) = [] ∧
    assignsToIn "callbacks" (localBranches snippet26) = [.assign (.one "callbacks") .pNone] ∧
    execStmts fuel0 true snippetBaseEnv snippet26 = .error (.nameError "callbacks") ∧
    exceptOk (execStmts fuel0 false snippetBaseEnv snippet26) = true ∧
    exceptOk (execStmts fuel0 true (("callbacks", Value.vnone) :: snippetBaseEnv) snippet26) = true :=
  ⟨by rfl, by rfl, by rfl, by rfl, by rfl, by rfl⟩
